import Mathlib

/-!
Shallow embedding of the `telegram-dachau_impf_bot` repository:

* `src/impfbot/contrib/de/bavaria/dachau.py` — the Dachau scraping plugin
  (center discovery and availability checking);
* `src/impfbot/main/config.py` — the configuration loader.

HTTP transfer and the external parsing libraries (`json.loads`,
`bs4.BeautifulSoup`) are not reimplemented: response bodies and fetched
pages are inputs, and JSON/HTML parsing is supplied through oracle
functions, so each embedded operation is a function of the code under
verification plus its external world.  Python exceptions become an
explicit error type carried by `Except`; `logger.error` calls become an
explicit list of emitted log records.
-/

/-- Result of Python `str.partition` taking index `[2]`: everything after the
first occurrence of the separator character, or the empty string when the
separator does not occur. -/
def partitionAfterChar (sep : Char) (l : List Char) : List Char :=
  (l.dropWhile (fun c => c ≠ sep)).drop 1

/-- Python `str.strip()`: remove leading and trailing whitespace. -/
def pyStrip (l : List Char) : List Char :=
  ((l.dropWhile Char.isWhitespace).reverse.dropWhile Char.isWhitespace).reverse

/-- Python `str.rstrip(c)`: remove every trailing occurrence of `c`. -/
def pyRstripChar (c : Char) (l : List Char) : List Char :=
  ((l.reverse).dropWhile (fun x => x = c)).reverse

/-- Does `l` start with `p`? -/
def startsWithChars : List Char → List Char → Bool
  | [], _ => true
  | _ :: _, [] => false
  | p :: ps, c :: cs => p == c && startsWithChars ps cs

/-- Does `pat` occur as a contiguous substring of `l`?  Embeds the Python
`pat in s` test on strings. -/
def hasSubstring (pat : List Char) : List Char → Bool
  | [] => startsWithChars pat []
  | c :: cs => startsWithChars pat (c :: cs) || hasSubstring pat cs

/-- Python `pat in s` on strings. -/
def strContains (s pat : String) : Bool :=
  hasSubstring pat.data s.data

/-- Python splitting of a character list at every occurrence of `sep`
(used to embed the `%Y-%m-%d` pattern match as a split at the dashes). -/
def splitOnChar (sep : Char) : List Char → List (List Char)
  | [] => [[]]
  | x :: xs =>
    match splitOnChar sep xs with
    | [] => if x == sep then [[], []] else [[x]]
    | h :: t => if x == sep then [] :: h :: t else (x :: h) :: t

/-- Decimal digits to a natural number (the strings are checked to be
all-digit before this is applied, mirroring `int()` on a digit string). -/
def digitsToNat (l : List Char) : Nat :=
  l.foldl (fun a c => a * 10 + (c.toNat - 48)) 0

/-- Gregorian leap-year rule, as in Python `datetime`. -/
def isLeapYear (y : Nat) : Bool :=
  (y % 4 == 0 && y % 100 != 0) || y % 400 == 0

/-- Number of days of month `m` in year `y`, as validated by
`datetime.date`. -/
def daysInMonth (y m : Nat) : Nat :=
  if m = 2 then (if isLeapYear y then 29 else 28)
  else if m = 4 ∨ m = 6 ∨ m = 9 ∨ m = 11 then 30
  else 31

/-- A calendar date as produced by `datetime.datetime.strptime(...).date()`. -/
structure PyDate where
  year : Nat
  month : Nat
  day : Nat
deriving Repr, DecidableEq

/-- Embeds `datetime.datetime.strptime(s, "%Y-%m-%d").date()`: the year is
exactly four digits, month and day are one or two digits, month is 1..12,
day is 1..31 and valid for the month, and year is at least 1 (the
`datetime.date` range check).  `none` means Python raises `ValueError`. -/
def parseDate (s : String) : Option PyDate :=
  match splitOnChar '-' s.data with
  | [ys, ms, ds] =>
    if ys.length = 4 ∧ ys.all Char.isDigit
        ∧ (ms.length = 1 ∨ ms.length = 2) ∧ ms.all Char.isDigit
        ∧ (ds.length = 1 ∨ ds.length = 2) ∧ ds.all Char.isDigit then
      let y := digitsToNat ys
      let m := digitsToNat ms
      let d := digitsToNat ds
      if 1 ≤ y ∧ 1 ≤ m ∧ m ≤ 12 ∧ 1 ≤ d ∧ d ≤ daysInMonth y m then
        some ⟨y, m, d⟩
      else none
    else none
  | _ => none

/-- `mapMOption f l` applies `f` left to right and succeeds when every
application does (the shape of a Python list comprehension that can
raise). -/
def mapMOption (f : α → Option β) : List α → Option (List β)
  | [] => some []
  | x :: xs =>
    match f x with
    | none => none
    | some y =>
      match mapMOption f xs with
      | none => none
      | some ys => some (y :: ys)

/-- The Python exceptions this code can raise.  `valueError` plays the role
the specification calls `ParseError` (Python `ValueError`, of which
`json.JSONDecodeError` is a subclass); `keyError` and `typeError` are the
uncaught dictionary/typing failures. -/
inductive PyErr where
  | valueError (msg : String)
  | keyError (key : String)
  | typeError (msg : String)
deriving Repr, DecidableEq

/-- A JSON value, as returned by `json.loads`. -/
inductive Json where
  | null
  | bool (b : Bool)
  | num (n : Int)
  | str (s : String)
  | arr (elems : List Json)
  | obj (fields : List (String × Json))

/-- Python subscripting `j[key]` with a string key: a dictionary lookup
(`KeyError` when absent), `TypeError` on any non-object. -/
def Json.getItem (j : Json) (key : String) : Except PyErr Json :=
  match j with
  | .obj fields =>
    match fields.lookup key with
    | some v => .ok v
    | none => .error (.keyError key)
  | _ => .error (.typeError "value is not subscriptable with a string key")

/-- Python `for x in j` over a JSON-derived value: lists yield their
elements, strings their characters (as one-character strings),
dictionaries their keys in insertion order; everything else raises
`TypeError`. -/
def Json.iterElems (j : Json) : Except PyErr (List Json) :=
  match j with
  | .arr xs => .ok xs
  | .str s => .ok (s.data.map (fun c => Json.str (String.mk [c])))
  | .obj fields => .ok (fields.map (fun kv => Json.str kv.fst))
  | _ => .error (.typeError "value is not iterable")

/-- Modelled from the spec: the `VaccineType` enumeration declared in
`impfbot.api`, a module not present in this excerpt; the three members are
the ones the plugin uses.  `name` is the Python `Enum.name` string. -/
inductive VaccineType where
  | AstraZeneca
  | Biontech
  | JohnsonAndJohnson
deriving Repr, DecidableEq

/-- Python `Enum.name` of a `VaccineType` member. -/
def VaccineType.name : VaccineType → String
  | .AstraZeneca => "AstraZeneca"
  | .Biontech => "Biontech"
  | .JohnsonAndJohnson => "JohnsonAndJohnson"

/-- Modelled from the spec: `VaccineRound` from `impfbot.api` is a pairing
of a vaccine type and an optional dose number, the shape of the dictionary
key `(self.vaccine_type, self.round_num)` used by the plugin. -/
abbrev VaccineRound := VaccineType × Option Nat

/-- Modelled from the spec: `AvailabilityInfo` from `impfbot.api` — a list
of available calendar dates plus an optional not-available-until marker. -/
structure AvailabilityInfo where
  dates : List PyDate
  not_available_until : Option PyDate
deriving Repr, DecidableEq

/-- An HTML tag as seen by the availability checker: only its attribute
dictionary is inspected (`t.attrs`). -/
structure HtmlTag where
  attrs : List (String × String)
deriving Repr, DecidableEq

/-- The dataclass `DachauMedVaccinationCenter`.  Field names, order and the
misspelled `ajax_none` follow the source.  `ajax_url` and `ajax_none` hold
whatever JSON values the discovery step extracted (Python does not check
their types). -/
structure DachauMedVaccinationCenter where
  vaccine_type : VaccineType
  round_num : Option Nat
  name : String
  salon_id : String
  url : String
  ajax_url : Json
  ajax_none : Json

/-- Python `__name__` of the plugin module. -/
def dachauModuleName : String := "impfbot.contrib.de.bavaria.dachau"

/-- The `uid` property: the f-string
`f"{__name__}:{self.vaccine_type.name}:{self.salon_id}"`. -/
def DachauMedVaccinationCenter.uid (self : DachauMedVaccinationCenter) : String :=
  dachauModuleName ++ ":" ++ self.vaccine_type.name ++ ":" ++ self.salon_id

/-- The `location` property: a constant string. -/
def DachauMedVaccinationCenter.location (_self : DachauMedVaccinationCenter) : String :=
  "Germany, Bavaria, Landkreis Dachau"

/-- The log record `logger.error` formats when no `data-intervals` node is
found (`"Unable to find node with data-intervals attribute in page.\n\n%s\n"`
interpolated with the content fragment). -/
def missingIntervalsLogRecord (content : String) : String :=
  "Unable to find node with data-intervals attribute in page.\n\n" ++ content ++ "\n"

/-- The date-list comprehension
`[datetime.datetime.strptime(d, "%Y-%m-%d").date() for d in ...]`:
each element must be a string (`TypeError` otherwise) and parse as a
`%Y-%m-%d` date (`ValueError` otherwise); evaluation is left to right and
the first failure raises. -/
def strptimeDates : List Json → Except PyErr (List PyDate)
  | [] => .ok []
  | Json.str s :: rest =>
    match parseDate s with
    | none => .error (.valueError ("time data " ++ s ++ " does not match format %Y-%m-%d"))
    | some d =>
      match strptimeDates rest with
      | .error e => .error e
      | .ok ds => .ok (d :: ds)
  | _ :: _ => .error (.typeError "strptime() argument must be str")

/-- Shallow embedding of `DachauMedVaccinationCenter.check_availability`.
The HTTP POST is not performed: `responseText` is the body the AJAX
endpoint answered with.  `jsonLoads` is the `json.loads` oracle (used both
for `response.json()` and for the `data-intervals` attribute value;
`none` means the library raises `json.JSONDecodeError`, a `ValueError`).
`htmlFind` is the `bs4` oracle returning the tags of an HTML fragment in
document order; `soup.find(lambda t: "data-intervals" in t.attrs)` becomes
`List.find?` over those tags.  The result carries the returned mapping (as
an association list) together with the log records emitted via
`logger.error`. -/
def DachauMedVaccinationCenter.check_availability
    (self : DachauMedVaccinationCenter)
    (jsonLoads : String → Option Json)
    (htmlFind : String → List HtmlTag)
    (responseText : String) :
    Except PyErr (List (VaccineRound × AvailabilityInfo) × List String) :=
  if strContains responseText "Keine freien Termine" then
    .ok ([], [])
  else
    match jsonLoads responseText with
    | none => .error (.valueError "response body is not valid JSON")
    | some body =>
      match body.getItem "content" with
      | .error e => .error e
      | .ok contentJson =>
        match contentJson with
        | .str content =>
          match (htmlFind content).find? (fun t => (t.attrs.lookup "data-intervals").isSome) with
          | none => .ok ([], [missingIntervalsLogRecord content])
          | some data_node =>
            match data_node.attrs.lookup "data-intervals" with
            | none => .error (.keyError "data-intervals")
            | some attrVal =>
              match jsonLoads attrVal with
              | none => .error (.valueError "data-intervals attribute is not valid JSON")
              | some intervals =>
                match intervals.getItem "dates" with
                | .error e => .error e
                | .ok datesJson =>
                  match datesJson.iterElems with
                  | .error e => .error e
                  | .ok elems =>
                    match strptimeDates elems with
                    | .error e => .error e
                    | .ok dates =>
                      .ok ([((self.vaccine_type, self.round_num),
                             { dates := dates, not_available_until := none })], [])
        | _ => .error (.typeError "BeautifulSoup markup must be a string")

/-- An `<option>` tag inside the shop-list container: its attribute
dictionary and its text content. -/
structure OptionTag where
  attrs : List (String × String)
  text : String
deriving Repr, DecidableEq

/-- A fetched discovery page, as seen through the three `soup.find` calls
the code performs: whether `form#salon-step-attendant` exists, the option
tags of `div.sln-shop-list` when that container exists, and the string
content of `script#salon-js-extra` when that script exists. -/
structure DiscoveryPage where
  has_attendant_form : Bool
  shop_list : Option (List OptionTag)
  salon_extra : Option String

/-- One entry of the `shops` list comprehension: `{"id": ..., "name": ...}`. -/
structure Shop where
  id : String
  name : String
deriving Repr, DecidableEq

/-- The `shops` comprehension: for each option tag, `opt.attrs["value"]`
(`KeyError` when the attribute is absent) and `opt.text.strip()`. -/
def shopsOf : List OptionTag → Except PyErr (List Shop)
  | [] => .ok []
  | opt :: rest =>
    match opt.attrs.lookup "value" with
    | none => .error (.keyError "value")
    | some v =>
      match shopsOf rest with
      | .error e => .error e
      | .ok ss => .ok ({ id := v, name := String.mk (pyStrip opt.text.data) } :: ss)

/-- The result-building loop of `_get_vaccination_centers_for`: one center
per shop, reading `extra_data["ajax_url"]` and `extra_data["ajax_nonce"]`
on every iteration exactly as the source does. -/
def buildCenters (vaccine_type : VaccineType) (round_num : Option Nat) (url : String)
    (extra_data : Json) : List Shop → Except PyErr (List DachauMedVaccinationCenter)
  | [] => .ok []
  | shop :: rest =>
    match extra_data.getItem "ajax_url" with
    | .error e => .error e
    | .ok au =>
      match extra_data.getItem "ajax_nonce" with
      | .error e => .error e
      | .ok an =>
        match buildCenters vaccine_type round_num url extra_data rest with
        | .error e => .error e
        | .ok others =>
          .ok ({ vaccine_type := vaccine_type, round_num := round_num,
                 name := shop.name, salon_id := shop.id, url := url,
                 ajax_url := au, ajax_none := an } :: others)

/-- Shallow embedding of `_get_vaccination_centers_for`.  The HTTP GET and
`raise_for_status` are outside the model: `page` is the already-fetched,
already-parsed page (no claim concerns the transport failure path).
`jsonLoads` is the `json.loads` oracle for the `salon-js-extra` payload.
The payload is the script text after the first `=`, stripped of
surrounding whitespace and of trailing semicolons, exactly as
`.partition("=")[2].strip().rstrip(";")` computes it. -/
def _get_vaccination_centers_for
    (jsonLoads : String → Option Json)
    (url : String) (vaccine_type : VaccineType) (round_num : Option Nat)
    (page : DiscoveryPage) :
    Except PyErr (List DachauMedVaccinationCenter) :=
  if page.has_attendant_form = false then
    .error (.valueError "form#salon-step-attendant not found")
  else
    match page.shop_list with
    | none => .error (.valueError "div.sln-shop-list not found")
    | some opts =>
      match shopsOf opts with
      | .error e => .error e
      | .ok shops =>
        match page.salon_extra with
        | none => .error (.valueError "script#salon-js-extra not found")
        | some scriptText =>
          let payload :=
            String.mk (pyRstripChar ';' (pyStrip (partitionAfterChar '=' scriptText.data)))
          match jsonLoads payload with
          | none => .error (.valueError "salon-js-extra payload is not valid JSON")
          | some extra_data => buildCenters vaccine_type round_num url extra_data shops

/-- URL constant from the source. -/
def ASTRA_2_URL : String := "https://termin.dachau-med.de/impfungen01/"

/-- URL constant from the source. -/
def JNJ_URL : String := "https://termin.dachau-med.de/impfungen02/"

/-- URL constant from the source. -/
def BIONTECH_1_URL : String := "https://termin.dachau-med.de/impfungen03/"

/-- URL constant from the source. -/
def BIONTECH_2_URL : String := "https://termin.dachau-med.de/impfung/"

/-- Shallow embedding of `DachauMedPlugin.get_vaccination_centers`: four
discovery calls in the source order (JnJ, AstraZeneca round 2, Biontech
round 1, Biontech round 2), results concatenated left to right; a failing
call aborts the whole computation exactly as an uncaught Python exception
would.  `pages` maps each booking URL to the page its GET returned. -/
def DachauMedPlugin.get_vaccination_centers
    (jsonLoads : String → Option Json)
    (pages : String → DiscoveryPage) :
    Except PyErr (List DachauMedVaccinationCenter) :=
  match _get_vaccination_centers_for jsonLoads JNJ_URL VaccineType.JohnsonAndJohnson none (pages JNJ_URL) with
  | .error e => .error e
  | .ok jnj =>
    match _get_vaccination_centers_for jsonLoads ASTRA_2_URL VaccineType.AstraZeneca (some 2) (pages ASTRA_2_URL) with
    | .error e => .error e
    | .ok astra =>
      match _get_vaccination_centers_for jsonLoads BIONTECH_1_URL VaccineType.Biontech (some 1) (pages BIONTECH_1_URL) with
      | .error e => .error e
      | .ok b1 =>
        match _get_vaccination_centers_for jsonLoads BIONTECH_2_URL VaccineType.Biontech (some 2) (pages BIONTECH_2_URL) with
        | .error e => .error e
        | .ok b2 => .ok (jnj ++ astra ++ b1 ++ b2)

/-- The `Config` dataclass with its field defaults from the source. -/
structure Config where
  token : String
  admin_chat_id : Int := 56970700
  database_spec : String := "sqlite+pysqlite:///data/impfbot.db"
  check_period : Int := 20 * 60
  log_format : String := "[%(asctime)s - %(levelname)s - %(name)s]: %(message)s"
deriving Repr, DecidableEq

/-- The key-value content of the settings file relevant to `Config`:
each field either present with a value or absent. -/
structure RawConfigFile where
  token : Option String := none
  admin_chat_id : Option Int := none
  database_spec : Option String := none
  check_period : Option Int := none
  log_format : Option String := none
deriving Repr, DecidableEq

/-- The error `Config.load` fails with when a required field is absent
(the specification's `ConfigError`). -/
inductive ConfigError where
  | missingField (name : String)
deriving Repr, DecidableEq

/-- Shallow embedding of `Config.load`: deserialize the settings file into
the dataclass shape.  The deserializer `databind.yaml.from_stream` is an
external library; its documented behaviour — the required `token` must be
present or loading fails, every other field falls back to its dataclass
default, no further validation — is modelled here; the default values
themselves come from the dataclass in the source. -/
def Config.load (raw : RawConfigFile) : Except ConfigError Config :=
  match raw.token with
  | none => .error (.missingField "token")
  | some t =>
    .ok { token := t
          admin_chat_id := raw.admin_chat_id.getD 56970700
          database_spec := raw.database_spec.getD "sqlite+pysqlite:///data/impfbot.db"
          check_period := raw.check_period.getD (20 * 60)
          log_format := raw.log_format.getD "[%(asctime)s - %(levelname)s - %(name)s]: %(message)s" }

/-- When every date string parses, the comprehension returns the parsed
dates in order. -/
theorem strptimeDates_map_str_ok (ss : List String) (ds : List PyDate)
    (h : mapMOption parseDate ss = some ds) :
    strptimeDates (ss.map Json.str) = .ok ds := by
  induction ss generalizing ds with
  | nil =>
    rw [mapMOption] at h
    simp only [Option.some.injEq] at h
    subst h
    rfl
  | cons s rest ih =>
    rw [mapMOption] at h
    cases hp : parseDate s with
    | none => rw [hp] at h; exact absurd h (by simp)
    | some d =>
      rw [hp] at h
      cases hr : mapMOption parseDate rest with
      | none => rw [hr] at h; exact absurd h (by simp)
      | some ds0 =>
        rw [hr] at h
        simp only [Option.some.injEq] at h
        subst h
        simp only [List.map_cons, strptimeDates, hp, ih ds0 hr]

/-- When some date string fails to parse, the comprehension raises a
`ValueError` (and earlier successes are discarded). -/
theorem strptimeDates_map_str_err (ss : List String)
    (h : mapMOption parseDate ss = none) :
    ∃ m, strptimeDates (ss.map Json.str) = .error (PyErr.valueError m) := by
  induction ss with
  | nil => rw [mapMOption] at h; exact absurd h (by simp)
  | cons s rest ih =>
    rw [mapMOption] at h
    cases hp : parseDate s with
    | none =>
      exact ⟨"time data " ++ s ++ " does not match format %Y-%m-%d",
        by simp only [List.map_cons, strptimeDates, hp]⟩
    | some d =>
      rw [hp] at h
      cases hr : mapMOption parseDate rest with
      | none =>
        obtain ⟨m, hm⟩ := ih hr
        exact ⟨m, by simp only [List.map_cons, strptimeDates, hp, hm]⟩
      | some ds => rw [hr] at h; exact absurd h (by simp)

/-- C5: for every availability response whose body contains the literal
substring "Keine freien Termine", `check_availability` returns an empty
mapping (and emits no log record) without raising an error; the conclusion
holds for every `jsonLoads` oracle — in particular one that fails on every
input — so the body is never parsed as JSON. -/
theorem check_availability_keine_freien_termine
    (self : DachauMedVaccinationCenter)
    (jsonLoads : String → Option Json) (htmlFind : String → List HtmlTag)
    (text : String)
    (h : strContains text "Keine freien Termine" = true) :
    self.check_availability jsonLoads htmlFind text = .ok ([], []) := by
  unfold DachauMedVaccinationCenter.check_availability
  rw [h]
  simp

/-- C5 witness: a concrete body containing the marker, checked with a
`jsonLoads` oracle that rejects every input. -/
theorem check_availability_keine_freien_termine_witness :
    DachauMedVaccinationCenter.check_availability
      { vaccine_type := VaccineType.AstraZeneca, round_num := some 2, name := "Shop",
        salon_id := "5", url := "u", ajax_url := Json.str "a", ajax_none := Json.str "n" }
      (fun _ => none) (fun _ => []) "Leider: Keine freien Termine verfuegbar" =
      .ok ([], []) :=
  check_availability_keine_freien_termine _ _ _ _ rfl

/-- C9: the `location` accessor returns the same constant string for every
`DachauMedVaccinationCenter`, independent of every field; the shop-specific
text lives only in the separate `name` field. -/
theorem location_is_constant (c : DachauMedVaccinationCenter) :
    c.location = "Germany, Bavaria, Landkreis Dachau" := rfl

/-- C7: `uid` is a function of the vaccine type and the salon id alone: two
centers agreeing on those two fields have the same `uid`, whatever their
name, URL, AJAX endpoint and token are. -/
theorem uid_depends_only_on_type_and_salon_id
    (c1 c2 : DachauMedVaccinationCenter)
    (hv : c1.vaccine_type = c2.vaccine_type)
    (hs : c1.salon_id = c2.salon_id) :
    c1.uid = c2.uid := by
  unfold DachauMedVaccinationCenter.uid
  rw [hv, hs]

/-- C7 witness: two centers equal in vaccine type and salon id but different
in every other field have the same `uid`. -/
theorem uid_depends_only_on_type_and_salon_id_witness :
    DachauMedVaccinationCenter.uid
        { vaccine_type := VaccineType.Biontech, round_num := some 1, name := "Shop A",
          salon_id := "17", url := "u1", ajax_url := Json.str "a1", ajax_none := Json.str "n1" } =
      DachauMedVaccinationCenter.uid
        { vaccine_type := VaccineType.Biontech, round_num := some 2, name := "Shop B",
          salon_id := "17", url := "u2", ajax_url := Json.str "a2", ajax_none := Json.str "n2" } :=
  uid_depends_only_on_type_and_salon_id _ _ rfl rfl

/-- C6: on a discovery page whose shop-list container is absent, discovery
raises a `ParseError` (a Python `ValueError`) and produces no partial
result: the `Except.error` outcome carries no `VaccinationCenter` at all.
When the step-attendant form is also missing, the earlier form check
raises first — still a `ParseError`. -/
theorem discovery_missing_shop_list_raises
    (jsonLoads : String → Option Json) (url : String)
    (vaccine_type : VaccineType) (round_num : Option Nat)
    (page : DiscoveryPage)
    (h : page.shop_list = none) :
    ∃ msg, _get_vaccination_centers_for jsonLoads url vaccine_type round_num page =
      .error (PyErr.valueError msg) := by
  unfold _get_vaccination_centers_for
  cases hf : page.has_attendant_form with
  | false => exact ⟨"form#salon-step-attendant not found", by simp [hf]⟩
  | true => exact ⟨"div.sln-shop-list not found", by simp [hf, h]⟩

/-- C6 witness: a concrete page with the form present but no shop-list
container. -/
theorem discovery_missing_shop_list_raises_witness :
    ∃ msg, _get_vaccination_centers_for (fun _ => none) JNJ_URL
        VaccineType.JohnsonAndJohnson none
        { has_attendant_form := true, shop_list := none, salon_extra := some "x = y;" } =
      .error (PyErr.valueError msg) :=
  discovery_missing_shop_list_raises _ _ _ _ _ rfl

/-- C8: `Config.load` fails with a `ConfigError` when the required `token`
field is absent from the settings file; when only `token` is set, every
other field takes its documented default (`admin_chat_id = 56970700`,
`database_spec = "sqlite+pysqlite:///data/impfbot.db"`,
`check_period = 1200` seconds, the documented `log_format`), with no
further validation of the values. -/
theorem config_load_requires_token_and_defaults (raw : RawConfigFile) :
    (raw.token = none → Config.load raw = .error (ConfigError.missingField "token")) ∧
    (∀ t, raw.token = some t → raw.admin_chat_id = none → raw.database_spec = none →
      raw.check_period = none → raw.log_format = none →
      Config.load raw =
        .ok { token := t,
              admin_chat_id := 56970700,
              database_spec := "sqlite+pysqlite:///data/impfbot.db",
              check_period := 1200,
              log_format := "[%(asctime)s - %(levelname)s - %(name)s]: %(message)s" }) := by
  constructor
  · intro h
    unfold Config.load
    rw [h]
  · intro t ht h1 h2 h3 h4
    unfold Config.load
    rw [ht, h1, h2, h3, h4]
    rfl

/-- C8 witness: the empty settings file fails with `ConfigError`; a file
setting only `token` loads with every default filled in. -/
theorem config_load_requires_token_and_defaults_witness :
    Config.load { token := none,
                  admin_chat_id := none,
                  database_spec := none,
                  check_period := none,
                  log_format := none } =
      .error (ConfigError.missingField "token") ∧
    Config.load { token := some "bot-token",
                  admin_chat_id := none,
                  database_spec := none,
                  check_period := none,
                  log_format := none } =
      .ok { token := "bot-token",
            admin_chat_id := 56970700,
            database_spec := "sqlite+pysqlite:///data/impfbot.db",
            check_period := 1200,
            log_format := "[%(asctime)s - %(levelname)s - %(name)s]: %(message)s" } :=
  ⟨(config_load_requires_token_and_defaults _).1 rfl,
   (config_load_requires_token_and_defaults _).2 "bot-token" rfl rfl rfl rfl rfl⟩

/-- C2: whatever the four per-page discovery results are, the plugin entry
point returns their concatenation in the fixed source order —
JohnsonAndJohnson/no-round, AstraZeneca/round-2, Biontech/round-1,
Biontech/round-2 — with no deduplication across the four calls
(concatenation keeps every element of every list). -/
theorem get_vaccination_centers_concat
    (jsonLoads : String → Option Json) (pages : String → DiscoveryPage)
    (jnj astra b1 b2 : List DachauMedVaccinationCenter)
    (h1 : _get_vaccination_centers_for jsonLoads JNJ_URL
            VaccineType.JohnsonAndJohnson none (pages JNJ_URL) = .ok jnj)
    (h2 : _get_vaccination_centers_for jsonLoads ASTRA_2_URL
            VaccineType.AstraZeneca (some 2) (pages ASTRA_2_URL) = .ok astra)
    (h3 : _get_vaccination_centers_for jsonLoads BIONTECH_1_URL
            VaccineType.Biontech (some 1) (pages BIONTECH_1_URL) = .ok b1)
    (h4 : _get_vaccination_centers_for jsonLoads BIONTECH_2_URL
            VaccineType.Biontech (some 2) (pages BIONTECH_2_URL) = .ok b2) :
    DachauMedPlugin.get_vaccination_centers jsonLoads pages =
      .ok (jnj ++ astra ++ b1 ++ b2) := by
  unfold DachauMedPlugin.get_vaccination_centers
  rw [h1, h2, h3, h4]

/-- Discovery page used by the C2 witness: one shop, the attendant form
present and a `salon-js-extra` script whose payload the witness oracle
maps to the AJAX configuration object.  Serving the same page for all four
URLs makes the same shop appear once per call in the concatenation,
exhibiting the absence of cross-call deduplication. -/
def c2Page : DiscoveryPage :=
  { has_attendant_form := true,
    shop_list := some [{ attrs := [("value", "1")], text := " Shop One " }],
    salon_extra := some "var salon = extradata;" }

/-- The `json.loads` oracle for the C2 witness. -/
def c2JsonLoads : String → Option Json := fun s =>
  if s = "extradata" then
    some (Json.obj [("ajax_url", Json.str "ajax"), ("ajax_nonce", Json.str "nonce")])
  else none

/-- One expected discovery result of the C2 witness. -/
def c2Center (vt : VaccineType) (round_num : Option Nat) (url : String) :
    DachauMedVaccinationCenter :=
  { vaccine_type := vt, round_num := round_num, name := "Shop One", salon_id := "1",
    url := url, ajax_url := Json.str "ajax", ajax_none := Json.str "nonce" }

/-- C2 witness: with every URL served the same one-shop page, the result is
the four per-call centers in the fixed order, the shared shop repeated once
per call. -/
theorem get_vaccination_centers_concat_witness :
    DachauMedPlugin.get_vaccination_centers c2JsonLoads (fun _ => c2Page) =
      .ok ([c2Center VaccineType.JohnsonAndJohnson none JNJ_URL] ++
           [c2Center VaccineType.AstraZeneca (some 2) ASTRA_2_URL] ++
           [c2Center VaccineType.Biontech (some 1) BIONTECH_1_URL] ++
           [c2Center VaccineType.Biontech (some 2) BIONTECH_2_URL]) :=
  get_vaccination_centers_concat c2JsonLoads (fun _ => c2Page) _ _ _ _ rfl rfl rfl rfl

/-- C1: for every center and every availability response that reaches the
date-extraction stage — its body does not contain the short-circuiting
"Keine freien Termine" marker, it parses as JSON, its `content` field is an
HTML fragment in which the first element carrying a `data-intervals`
attribute holds a well-formed JSON object whose `dates` entry is an array
of well-formed `YYYY-MM-DD` strings — `check_availability` returns a
mapping with exactly one entry, keyed by the center's
`(vaccine_type, round_num)`, whose `AvailabilityInfo` holds exactly the
parsed calendar dates in order and a `none` not-available-until marker
(and no log record is emitted). -/
theorem check_availability_returns_single_entry
    (self : DachauMedVaccinationCenter)
    (jsonLoads : String → Option Json) (htmlFind : String → List HtmlTag)
    (text content attrVal : String)
    (body : Json) (fieldsI : List (String × Json)) (node : HtmlTag)
    (ss : List String) (dates : List PyDate)
    (hKeine : strContains text "Keine freien Termine" = false)
    (hBody : jsonLoads text = some body)
    (hContent : body.getItem "content" = .ok (.str content))
    (hFind : (htmlFind content).find? (fun t => (t.attrs.lookup "data-intervals").isSome) = some node)
    (hAttr : node.attrs.lookup "data-intervals" = some attrVal)
    (hIntervals : jsonLoads attrVal = some (Json.obj fieldsI))
    (hDates : fieldsI.lookup "dates" = some (.arr (ss.map Json.str)))
    (hParse : mapMOption parseDate ss = some dates) :
    self.check_availability jsonLoads htmlFind text =
      .ok ([((self.vaccine_type, self.round_num),
             { dates := dates, not_available_until := none })], []) := by
  unfold DachauMedVaccinationCenter.check_availability
  simp only [hKeine, Bool.false_eq_true, if_false, hBody]
  rw [hContent]
  simp only [hFind, hAttr, hIntervals, Json.getItem, hDates, Json.iterElems,
    strptimeDates_map_str_ok ss dates hParse]

/-- The `json.loads` oracle for the C1 witness. -/
def c1JsonLoads : String → Option Json := fun s =>
  if s = "availability-response" then
    some (Json.obj [("content", Json.str "fragment")])
  else if s = "intervals-attr" then
    some (Json.obj [("dates", Json.arr [Json.str "2021-06-01", Json.str "2021-06-03"])])
  else none

/-- The `bs4` oracle for the C1 witness: the fragment holds one tag with a
`data-intervals` attribute. -/
def c1HtmlFind : String → List HtmlTag := fun _ =>
  [{ attrs := [("data-intervals", "intervals-attr")] }]

/-- C1 witness: a concrete response with
`data-intervals = {"dates": ["2021-06-01", "2021-06-03"]}` yields a single
entry keyed `(Biontech, round 1)` with exactly June 1 and June 3, 2021 and
a `none` marker. -/
theorem check_availability_returns_single_entry_witness :
    DachauMedVaccinationCenter.check_availability
      { vaccine_type := VaccineType.Biontech, round_num := some 1, name := "MVZ Dachau",
        salon_id := "17", url := "u", ajax_url := Json.str "a", ajax_none := Json.str "n" }
      c1JsonLoads c1HtmlFind "availability-response" =
      .ok ([((VaccineType.Biontech, some 1),
             { dates := [⟨2021, 6, 1⟩, ⟨2021, 6, 3⟩], not_available_until := none })], []) :=
  check_availability_returns_single_entry _ c1JsonLoads c1HtmlFind
    "availability-response" "fragment" "intervals-attr"
    (Json.obj [("content", Json.str "fragment")])
    [("dates", Json.arr [Json.str "2021-06-01", Json.str "2021-06-03"])]
    { attrs := [("data-intervals", "intervals-attr")] }
    ["2021-06-01", "2021-06-03"] [⟨2021, 6, 1⟩, ⟨2021, 6, 3⟩]
    rfl rfl rfl rfl rfl rfl rfl rfl

/-- C3: for every availability response that reaches the date-extraction
stage with a `dates` array of strings of which at least one is malformed
(fails the `%Y-%m-%d` parse), `check_availability` raises the `ValueError`
the specification calls `ParseError` — the error propagates instead of
being swallowed, in contrast to the tolerant missing-attribute case of
claim C4. -/
theorem check_availability_malformed_date_raises
    (self : DachauMedVaccinationCenter)
    (jsonLoads : String → Option Json) (htmlFind : String → List HtmlTag)
    (text content attrVal : String)
    (body : Json) (fieldsI : List (String × Json)) (node : HtmlTag)
    (ss : List String)
    (hKeine : strContains text "Keine freien Termine" = false)
    (hBody : jsonLoads text = some body)
    (hContent : body.getItem "content" = .ok (.str content))
    (hFind : (htmlFind content).find? (fun t => (t.attrs.lookup "data-intervals").isSome) = some node)
    (hAttr : node.attrs.lookup "data-intervals" = some attrVal)
    (hIntervals : jsonLoads attrVal = some (Json.obj fieldsI))
    (hDates : fieldsI.lookup "dates" = some (.arr (ss.map Json.str)))
    (hParse : mapMOption parseDate ss = none) :
    ∃ m, self.check_availability jsonLoads htmlFind text =
      .error (PyErr.valueError m) := by
  obtain ⟨m, hm⟩ := strptimeDates_map_str_err ss hParse
  refine ⟨m, ?_⟩
  unfold DachauMedVaccinationCenter.check_availability
  simp only [hKeine, Bool.false_eq_true, if_false, hBody]
  rw [hContent]
  simp only [hFind, hAttr, hIntervals, Json.getItem, hDates, Json.iterElems, hm]

/-- The `json.loads` oracle for the C3 witness: the `dates` array holds one
well-formed and one malformed date string. -/
def c3JsonLoads : String → Option Json := fun s =>
  if s = "availability-response" then
    some (Json.obj [("content", Json.str "fragment")])
  else if s = "intervals-attr" then
    some (Json.obj [("dates", Json.arr [Json.str "2021-06-01", Json.str "not-a-date"])])
  else none

/-- C3 witness: a concrete response whose `dates` array contains the
malformed string "not-a-date" makes `check_availability` raise a
`ValueError`. -/
theorem check_availability_malformed_date_raises_witness :
    ∃ m, DachauMedVaccinationCenter.check_availability
      { vaccine_type := VaccineType.Biontech, round_num := some 1, name := "MVZ Dachau",
        salon_id := "17", url := "u", ajax_url := Json.str "a", ajax_none := Json.str "n" }
      c3JsonLoads c1HtmlFind "availability-response" =
      .error (PyErr.valueError m) :=
  check_availability_malformed_date_raises _ c3JsonLoads c1HtmlFind
    "availability-response" "fragment" "intervals-attr"
    (Json.obj [("content", Json.str "fragment")])
    [("dates", Json.arr [Json.str "2021-06-01", Json.str "not-a-date"])]
    { attrs := [("data-intervals", "intervals-attr")] }
    ["2021-06-01", "not-a-date"]
    rfl rfl rfl rfl rfl rfl rfl rfl

/-- C4: for every availability response whose body does not contain
"Keine freien Termine" and whose JSON `content` fragment has no element
carrying a `data-intervals` attribute, `check_availability` returns an
empty mapping together with exactly one emitted log record, and raises no
exception — the tolerant detection-failure path. -/
theorem check_availability_no_intervals_node_logs
    (self : DachauMedVaccinationCenter)
    (jsonLoads : String → Option Json) (htmlFind : String → List HtmlTag)
    (text content : String) (body : Json)
    (hKeine : strContains text "Keine freien Termine" = false)
    (hBody : jsonLoads text = some body)
    (hContent : body.getItem "content" = .ok (.str content))
    (hNo : ∀ tag ∈ htmlFind content, tag.attrs.lookup "data-intervals" = none) :
    self.check_availability jsonLoads htmlFind text =
      .ok ([], [missingIntervalsLogRecord content]) := by
  have hFind : (htmlFind content).find?
      (fun t => (t.attrs.lookup "data-intervals").isSome) = none := by
    rw [List.find?_eq_none]
    intro t ht
    simp [hNo t ht]
  unfold DachauMedVaccinationCenter.check_availability
  simp only [hKeine, Bool.false_eq_true, if_false, hBody]
  rw [hContent]
  simp only [hFind]

/-- The `json.loads` oracle for the C4 witness. -/
def c4JsonLoads : String → Option Json := fun s =>
  if s = "availability-response" then
    some (Json.obj [("content", Json.str "fragment")])
  else none

/-- The `bs4` oracle for the C4 witness: the fragment holds one tag, and it
has no `data-intervals` attribute. -/
def c4HtmlFind : String → List HtmlTag := fun _ =>
  [{ attrs := [("class", "sln-box")] }]

/-- C4 witness: a concrete response whose content fragment has no
`data-intervals` element yields the empty mapping and one log record. -/
theorem check_availability_no_intervals_node_logs_witness :
    DachauMedVaccinationCenter.check_availability
      { vaccine_type := VaccineType.JohnsonAndJohnson, round_num := none, name := "Shop",
        salon_id := "3", url := "u", ajax_url := Json.str "a", ajax_none := Json.str "n" }
      c4JsonLoads c4HtmlFind "availability-response" =
      .ok ([], [missingIntervalsLogRecord "fragment"]) :=
  check_availability_no_intervals_node_logs _ c4JsonLoads c4HtmlFind
    "availability-response" "fragment" (Json.obj [("content", Json.str "fragment")])
    rfl rfl rfl (by decide)

/-- C10: when the `data-intervals` attribute value parses as a JSON object
that has no `dates` key, `check_availability` raises an uncaught `KeyError`
— the tolerant log-and-return-empty branch covers only the absence of a
`data-intervals` element, not a present attribute of the wrong shape. -/
theorem check_availability_missing_dates_key_raises
    (self : DachauMedVaccinationCenter)
    (jsonLoads : String → Option Json) (htmlFind : String → List HtmlTag)
    (text content attrVal : String)
    (body : Json) (fieldsI : List (String × Json)) (node : HtmlTag)
    (hKeine : strContains text "Keine freien Termine" = false)
    (hBody : jsonLoads text = some body)
    (hContent : body.getItem "content" = .ok (.str content))
    (hFind : (htmlFind content).find? (fun t => (t.attrs.lookup "data-intervals").isSome) = some node)
    (hAttr : node.attrs.lookup "data-intervals" = some attrVal)
    (hIntervals : jsonLoads attrVal = some (Json.obj fieldsI))
    (hNoDates : fieldsI.lookup "dates" = none) :
    self.check_availability jsonLoads htmlFind text =
      .error (PyErr.keyError "dates") := by
  unfold DachauMedVaccinationCenter.check_availability
  simp only [hKeine, Bool.false_eq_true, if_false, hBody]
  rw [hContent]
  simp only [hFind, hAttr, hIntervals, Json.getItem, hNoDates]

/-- The `json.loads` oracle for the C10 witness: the attribute value parses
to an object without a `dates` key. -/
def c10JsonLoads : String → Option Json := fun s =>
  if s = "availability-response" then
    some (Json.obj [("content", Json.str "fragment")])
  else if s = "intervals-attr" then
    some (Json.obj [("slots", Json.arr [])])
  else none

/-- C10 witness: a present `data-intervals` object lacking the `dates` key
makes `check_availability` raise `KeyError "dates"`. -/
theorem check_availability_missing_dates_key_raises_witness :
    DachauMedVaccinationCenter.check_availability
      { vaccine_type := VaccineType.AstraZeneca, round_num := some 2, name := "Shop",
        salon_id := "9", url := "u", ajax_url := Json.str "a", ajax_none := Json.str "n" }
      c10JsonLoads c1HtmlFind "availability-response" =
      .error (PyErr.keyError "dates") :=
  check_availability_missing_dates_key_raises _ c10JsonLoads c1HtmlFind
    "availability-response" "fragment" "intervals-attr"
    (Json.obj [("content", Json.str "fragment")])
    [("slots", Json.arr [])]
    { attrs := [("data-intervals", "intervals-attr")] }
    rfl rfl rfl rfl rfl rfl rfl
